import Mathlib

/-!
Verification of the shader-code dictionary subsystem
(`src/core/SkShaderCodeDictionary.cpp`).

The definitions below are a shallow embedding of the C++ source:

* keys are modelled as their byte contents (`List Nat`), since the
  dictionary's hashing and equality are defined purely over the raw key
  bytes (`SkPaintParamsKeyPtr::Hash` hashes `fKey->data()`);
* pointers to `Entry` records are modelled as the `Entry` values
  themselves, and the `fHash` hash table as an association list from key
  bytes to entries (insertion prepends; the C++ `set` is only called after
  a failed `find`, so no duplicate key is ever inserted);
* `SkASSERT` (a fatal checked assertion in debug builds) is modelled by
  returning `none` / `Except.error ()`: a function result of `none` means
  the C++ run aborts via a contract-violation assertion;
* the standard-library call `std::to_string(int)` on a non-negative
  value is modelled by `Nat.repr`, Lean's decimal printer.
-/

/-- The `SkSLType` enum (the subset of scalar/vector/matrix types used by
`SkShaderCodeDictionary.cpp` and `uniform_type_to_sksl_type`). -/
inductive SkSLType where
  | kFloat | kFloat2 | kFloat3 | kFloat4
  | kFloat2x2 | kFloat3x3 | kFloat4x4
  | kHalf | kHalf2 | kHalf3 | kHalf4
  | kHalf2x2 | kHalf3x3 | kHalf4x4
  | kInt | kInt2 | kInt3 | kInt4
  | kShort | kShort2 | kShort3 | kShort4
  deriving DecidableEq

/-- Embedding of `SkUniform`: a uniform declaration with a name, an SkSL type and an
optional array count (`none` models the non-array constructor). -/
structure SkUniform where
  name : String
  type : SkSLType
  count : Option Nat
  deriving DecidableEq

instance : Inhabited SkUniform := ⟨⟨"", SkSLType.kFloat, none⟩⟩

/-- Embedding of `SnippetRequirementFlags` (the two values used by the source file). -/
inductive SnippetRequirementFlags where
  | kNone
  | kLocalCoords
  deriving DecidableEq

/-- Embedding of `SkTextureAndSampler`: a texture/sampler binding (only its name is used
by this translation unit). -/
structure SkTextureAndSampler where
  name : String
  deriving DecidableEq

/-- Embedding of `SkPaintParamsKey::DataPayloadField`: a typed, named data-payload slot.
Every snippet registered by this translation unit has an empty payload
schema, so only the name is carried here. -/
structure SkPaintParamsKey.DataPayloadField where
  name : String
  deriving DecidableEq

/-- The code-generation strategies of `SkShaderCodeDictionary.cpp`.  In C++
these are function pointers stored in `fExpressionGenerator`; here each
strategy is a tag, dispatched by `runGenerator` below. -/
inductive GenerateExpressionForSnippetFn where
  | generateDefaultGlueCode
  | generateDefaultGlueCodeWithChildren
  | generateImageShaderGlueCode
  | generateRuntimeShaderGlueCode
  | generateFixedFunctionBlenderGlueCode
  | generateShaderBasedBlenderGlueCode
  deriving DecidableEq

/-- Embedding of `SkShaderSnippet`: the static description of one shading building
block, with the field names of the C++ struct. -/
structure SkShaderSnippet where
  fName : String
  fUniforms : List SkUniform
  fSnippetRequirementFlags : SnippetRequirementFlags
  fTexturesAndSamplers : List SkTextureAndSampler
  fStaticFunctionName : String
  fExpressionGenerator : GenerateExpressionForSnippetFn
  fNumChildren : Nat
  fDataPayloadExpectations : List SkPaintParamsKey.DataPayloadField
  deriving DecidableEq

/-- Embedding of `SkShaderSnippet::needsLocalCoords()`: tests the `kLocalCoords`
requirement flag (accessor defined in the header; its use throughout the
.cpp file is the flag test shown here). -/
def SkShaderSnippet.needsLocalCoords (s : SkShaderSnippet) : Bool :=
  s.fSnippetRequirementFlags = SnippetRequirementFlags.kLocalCoords

/-- Embedding of `get_mangled_name` (anonymous namespace): suffixes a base name with
`"_"` and the decimal mangling index. -/
def get_mangled_name (baseName : String) (manglingSuffix : Nat) : String :=
  baseName ++ "_" ++ Nat.repr manglingSuffix

/-- Embedding of `SkShaderSnippet::getMangledUniformName`: the uniform's name suffixed
with `"_"` and the decimal mangle id.  The C++ indexes
`fUniforms[uniformIndex]` unchecked; every call site guarantees the index
is in range, and `getD` totalizes the out-of-range case. -/
def SkShaderSnippet.getMangledUniformName (s : SkShaderSnippet)
    (uniformIndex : Nat) (mangleId : Nat) : String :=
  (s.fUniforms.getD uniformIndex default).name ++ "_" ++ Nat.repr mangleId

/-- Embedding of `SkShaderCodeDictionary::Entry`: an owned copy of the key bytes, the
blend-behavior descriptor (opaque here), and the unique identity set by
`setUniqueID` at creation. -/
structure SkShaderCodeDictionary.Entry where
  paintParamsKey : List Nat
  blendInfo : Nat
  uniqueID : Nat
  deriving DecidableEq

/-- The mutable state of `SkShaderCodeDictionary`: the dense
identity-indexed entry vector (`nullptr` modelled as `none`), the key
hash index, the runtime-effect interning map, and the user-defined
snippet storage.  `fBuiltInCodeSnippets` is initialized identically for
every dictionary and is modelled as the constant list below. -/
structure SkShaderCodeDictionary where
  fEntryVector : List (Option SkShaderCodeDictionary.Entry)
  fHash : List (List Nat × SkShaderCodeDictionary.Entry)
  fRuntimeEffectMap : List ((Nat × Nat) × Nat)
  fUserDefinedCodeSnippets : List SkShaderSnippet
  deriving DecidableEq

/-- The `SkShaderCodeDictionary` constructor: reserves index 0 of
`fEntryVector` as invalid (`nullptr`); all other containers start empty. -/
def SkShaderCodeDictionary.ctor : SkShaderCodeDictionary :=
  ⟨[none], [], [], []⟩

/-- Embedding of `SkShaderCodeDictionary::findOrCreate`: looks the locked key up by
byte-content equality; on a hit the stored entry is returned unchanged
(`SkASSERT(fEntryVector[id] == *existingEntry)` modelled as the `if`
guard, `none` = assertion failure); on a miss an owned copy of the key is
made (`makeEntry`), the next sequential identity `fEntryVector.size()` is
assigned (`setUniqueID`), and the entry is inserted into both the hash
index and the dense identity vector. -/
def SkShaderCodeDictionary.findOrCreate (d : SkShaderCodeDictionary)
    (key : List Nat) (blendInfo : Nat) :
    Option (SkShaderCodeDictionary.Entry × SkShaderCodeDictionary) :=
  match d.fHash.find? (fun p => p.1 == key) with
  | some p =>
      if d.fEntryVector.get? p.2.uniqueID = some (some p.2) then
        some (p.2, d)
      else
        none
  | none =>
      let newEntry : SkShaderCodeDictionary.Entry :=
        ⟨key, blendInfo, d.fEntryVector.length⟩
      some (newEntry,
        { d with
          fEntryVector := d.fEntryVector ++ [some newEntry],
          fHash := (key, newEntry) :: d.fHash })

/-- Modelled from the spec: `SkUniquePaintParamsID::isValid` lives in a
header that is not under `src/`; the spec reserves identity 0 as
"invalid/none", so validity is `id ≠ 0`. -/
def SkUniquePaintParamsID.isValid (id : Nat) : Bool :=
  id ≠ 0

/-- Embedding of `SkShaderCodeDictionary::lookup`: returns `nullptr` (`Except.ok none`)
for an invalid identity; otherwise `SkASSERT(codeID < fEntryVector.size())`
(failure modelled as `Except.error ()`) and an O(1) read of the dense
vector. -/
def SkShaderCodeDictionary.lookup (d : SkShaderCodeDictionary)
    (codeID : Nat) : Except Unit (Option SkShaderCodeDictionary.Entry) :=
  if ¬ SkUniquePaintParamsID.isValid codeID then
    Except.ok none
  else
    match d.fEntryVector.get? codeID with
    | some e => Except.ok e
    | none => Except.error ()

/-- The dictionary's state invariant, established by the constructor and
preserved by `findOrCreate`:
index 0 of the entry vector is the reserved `nullptr`; every hash pair
maps the entry's own key bytes to it; every hashed entry sits in the
dense vector at its identity; every slot from index 1 on is occupied. -/
def SkShaderCodeDictionary.WellFormed (d : SkShaderCodeDictionary) : Prop :=
  d.fEntryVector.head? = some none ∧
  (∀ p ∈ d.fHash, p.2.paintParamsKey = p.1) ∧
  (∀ p ∈ d.fHash, d.fEntryVector.get? p.2.uniqueID = some (some p.2)) ∧
  (∀ i, i < d.fEntryVector.length → 1 ≤ i →
    d.fEntryVector.get? i ≠ some none)

instance (d : SkShaderCodeDictionary) : Decidable d.WellFormed := by
  unfold SkShaderCodeDictionary.WellFormed
  infer_instance

/-! ### Built-in snippet registry

The uniform tables and snippet descriptors installed by the
`SkShaderCodeDictionary` constructor, transcribed in construction order
(`SkBuiltInCodeSnippetID` enum order). -/

def kFourStopGradient : Nat := 4

def kEightStopGradient : Nat := 8

def kLinearGradientUniforms4 : List SkUniform :=
  [⟨"localMatrix", SkSLType.kFloat4x4, none⟩,
   ⟨"colors", SkSLType.kFloat4, some kFourStopGradient⟩,
   ⟨"offsets", SkSLType.kFloat, some kFourStopGradient⟩,
   ⟨"point0", SkSLType.kFloat2, none⟩,
   ⟨"point1", SkSLType.kFloat2, none⟩,
   ⟨"tilemode", SkSLType.kInt, none⟩]

def kLinearGradientUniforms8 : List SkUniform :=
  [⟨"localMatrix", SkSLType.kFloat4x4, none⟩,
   ⟨"colors", SkSLType.kFloat4, some kEightStopGradient⟩,
   ⟨"offsets", SkSLType.kFloat, some kEightStopGradient⟩,
   ⟨"point0", SkSLType.kFloat2, none⟩,
   ⟨"point1", SkSLType.kFloat2, none⟩,
   ⟨"tilemode", SkSLType.kInt, none⟩]

def kRadialGradientUniforms4 : List SkUniform :=
  [⟨"localMatrix", SkSLType.kFloat4x4, none⟩,
   ⟨"colors", SkSLType.kFloat4, some kFourStopGradient⟩,
   ⟨"offsets", SkSLType.kFloat, some kFourStopGradient⟩,
   ⟨"center", SkSLType.kFloat2, none⟩,
   ⟨"radius", SkSLType.kFloat, none⟩,
   ⟨"tilemode", SkSLType.kInt, none⟩]

def kRadialGradientUniforms8 : List SkUniform :=
  [⟨"localMatrix", SkSLType.kFloat4x4, none⟩,
   ⟨"colors", SkSLType.kFloat4, some kEightStopGradient⟩,
   ⟨"offsets", SkSLType.kFloat, some kEightStopGradient⟩,
   ⟨"center", SkSLType.kFloat2, none⟩,
   ⟨"radius", SkSLType.kFloat, none⟩,
   ⟨"tilemode", SkSLType.kInt, none⟩]

def kSweepGradientUniforms4 : List SkUniform :=
  [⟨"localMatrix", SkSLType.kFloat4x4, none⟩,
   ⟨"colors", SkSLType.kFloat4, some kFourStopGradient⟩,
   ⟨"offsets", SkSLType.kFloat, some kFourStopGradient⟩,
   ⟨"center", SkSLType.kFloat2, none⟩,
   ⟨"bias", SkSLType.kFloat, none⟩,
   ⟨"scale", SkSLType.kFloat, none⟩,
   ⟨"tilemode", SkSLType.kInt, none⟩]

def kSweepGradientUniforms8 : List SkUniform :=
  [⟨"localMatrix", SkSLType.kFloat4x4, none⟩,
   ⟨"colors", SkSLType.kFloat4, some kEightStopGradient⟩,
   ⟨"offsets", SkSLType.kFloat, some kEightStopGradient⟩,
   ⟨"center", SkSLType.kFloat2, none⟩,
   ⟨"bias", SkSLType.kFloat, none⟩,
   ⟨"scale", SkSLType.kFloat, none⟩,
   ⟨"tilemode", SkSLType.kInt, none⟩]

def kConicalGradientUniforms4 : List SkUniform :=
  [⟨"localMatrix", SkSLType.kFloat4x4, none⟩,
   ⟨"colors", SkSLType.kFloat4, some kFourStopGradient⟩,
   ⟨"offsets", SkSLType.kFloat, some kFourStopGradient⟩,
   ⟨"point0", SkSLType.kFloat2, none⟩,
   ⟨"point1", SkSLType.kFloat2, none⟩,
   ⟨"radius0", SkSLType.kFloat, none⟩,
   ⟨"radius1", SkSLType.kFloat, none⟩,
   ⟨"tilemode", SkSLType.kInt, none⟩]

def kConicalGradientUniforms8 : List SkUniform :=
  [⟨"localMatrix", SkSLType.kFloat4x4, none⟩,
   ⟨"colors", SkSLType.kFloat4, some kEightStopGradient⟩,
   ⟨"offsets", SkSLType.kFloat, some kEightStopGradient⟩,
   ⟨"point0", SkSLType.kFloat2, none⟩,
   ⟨"point1", SkSLType.kFloat2, none⟩,
   ⟨"radius0", SkSLType.kFloat, none⟩,
   ⟨"radius1", SkSLType.kFloat, none⟩,
   ⟨"tilemode", SkSLType.kInt, none⟩]

def kLinearGradient4Name : String := "sk_linear_grad_4_shader"

def kLinearGradient8Name : String := "sk_linear_grad_8_shader"

def kRadialGradient4Name : String := "sk_radial_grad_4_shader"

def kRadialGradient8Name : String := "sk_radial_grad_8_shader"

def kSweepGradient4Name : String := "sk_sweep_grad_4_shader"

def kSweepGradient8Name : String := "sk_sweep_grad_8_shader"

def kConicalGradient4Name : String := "sk_conical_grad_4_shader"

def kConicalGradient8Name : String := "sk_conical_grad_8_shader"

def kSolidShaderUniforms : List SkUniform :=
  [⟨"color", SkSLType.kFloat4, none⟩]

def kSolidShaderName : String := "sk_solid_shader"

def kLocalMatrixShaderUniforms : List SkUniform :=
  [⟨"localMatrix", SkSLType.kFloat4x4, none⟩]

def kNumLocalMatrixShaderChildren : Nat := 1

def kLocalMatrixShaderName : String := "sk_local_matrix_shader"

def kImageShaderUniforms : List SkUniform :=
  [⟨"localMatrix", SkSLType.kFloat4x4, none⟩,
   ⟨"subset", SkSLType.kFloat4, none⟩,
   ⟨"tilemodeX", SkSLType.kInt, none⟩,
   ⟨"tilemodeY", SkSLType.kInt, none⟩,
   ⟨"imgWidth", SkSLType.kInt, none⟩,
   ⟨"imgHeight", SkSLType.kInt, none⟩]

def kISTexturesAndSamplers : List SkTextureAndSampler :=
  [⟨"sampler"⟩]

def kImageShaderName : String := "sk_compute_coords"

def kBlendShaderUniforms : List SkUniform :=
  [⟨"blendMode", SkSLType.kInt, none⟩]

def kNumBlendShaderChildren : Nat := 2

def kBlendShaderName : String := "sk_blend_shader"

def kRuntimeShaderName : String := "RuntimeEffect"

def kErrorName : String := "sk_error"

def kShaderBasedBlenderUniforms : List SkUniform :=
  [⟨"blendMode", SkSLType.kInt, none⟩]

def kBlendHelperName : String := "sk_blend"

def kNoChildren : Nat := 0

/-- The `fBuiltInCodeSnippets` array as filled by the
`SkShaderCodeDictionary` constructor, indexed by `SkBuiltInCodeSnippetID`
in declaration order (`kError`, `kSolidColorShader`, the eight gradient
ids, `kLocalMatrixShader`, `kImageShader`, `kBlendShader`,
`kFixedFunctionBlender`, `kShaderBasedBlender`). -/
def fBuiltInCodeSnippets : List SkShaderSnippet :=
  [⟨"Error", [], SnippetRequirementFlags.kNone, [], kErrorName,
    GenerateExpressionForSnippetFn.generateDefaultGlueCode, kNoChildren, []⟩,
   ⟨"SolidColor", kSolidShaderUniforms, SnippetRequirementFlags.kNone, [],
    kSolidShaderName,
    GenerateExpressionForSnippetFn.generateDefaultGlueCode, kNoChildren, []⟩,
   ⟨"LinearGradient4", kLinearGradientUniforms4,
    SnippetRequirementFlags.kLocalCoords, [], kLinearGradient4Name,
    GenerateExpressionForSnippetFn.generateDefaultGlueCode, kNoChildren, []⟩,
   ⟨"LinearGradient8", kLinearGradientUniforms8,
    SnippetRequirementFlags.kLocalCoords, [], kLinearGradient8Name,
    GenerateExpressionForSnippetFn.generateDefaultGlueCode, kNoChildren, []⟩,
   ⟨"RadialGradient4", kRadialGradientUniforms4,
    SnippetRequirementFlags.kLocalCoords, [], kRadialGradient4Name,
    GenerateExpressionForSnippetFn.generateDefaultGlueCode, kNoChildren, []⟩,
   ⟨"RadialGradient8", kRadialGradientUniforms8,
    SnippetRequirementFlags.kLocalCoords, [], kRadialGradient8Name,
    GenerateExpressionForSnippetFn.generateDefaultGlueCode, kNoChildren, []⟩,
   ⟨"SweepGradient4", kSweepGradientUniforms4,
    SnippetRequirementFlags.kLocalCoords, [], kSweepGradient4Name,
    GenerateExpressionForSnippetFn.generateDefaultGlueCode, kNoChildren, []⟩,
   ⟨"SweepGradient8", kSweepGradientUniforms8,
    SnippetRequirementFlags.kLocalCoords, [], kSweepGradient8Name,
    GenerateExpressionForSnippetFn.generateDefaultGlueCode, kNoChildren, []⟩,
   ⟨"ConicalGradient4", kConicalGradientUniforms4,
    SnippetRequirementFlags.kLocalCoords, [], kConicalGradient4Name,
    GenerateExpressionForSnippetFn.generateDefaultGlueCode, kNoChildren, []⟩,
   ⟨"ConicalGradient8", kConicalGradientUniforms8,
    SnippetRequirementFlags.kLocalCoords, [], kConicalGradient8Name,
    GenerateExpressionForSnippetFn.generateDefaultGlueCode, kNoChildren, []⟩,
   ⟨"LocalMatrixShader", kLocalMatrixShaderUniforms,
    SnippetRequirementFlags.kLocalCoords, [], kLocalMatrixShaderName,
    GenerateExpressionForSnippetFn.generateDefaultGlueCodeWithChildren,
    kNumLocalMatrixShaderChildren, []⟩,
   ⟨"ImageShader", kImageShaderUniforms,
    SnippetRequirementFlags.kLocalCoords, kISTexturesAndSamplers,
    kImageShaderName,
    GenerateExpressionForSnippetFn.generateImageShaderGlueCode,
    kNoChildren, []⟩,
   ⟨"BlendShader", kBlendShaderUniforms, SnippetRequirementFlags.kNone, [],
    kBlendShaderName,
    GenerateExpressionForSnippetFn.generateDefaultGlueCodeWithChildren,
    kNumBlendShaderChildren, []⟩,
   ⟨"FixedFunctionBlender", [], SnippetRequirementFlags.kNone, [],
    "FF-blending",
    GenerateExpressionForSnippetFn.generateFixedFunctionBlenderGlueCode,
    kNoChildren, []⟩,
   ⟨"ShaderBasedBlender", kShaderBasedBlenderUniforms,
    SnippetRequirementFlags.kNone, [], kBlendHelperName,
    GenerateExpressionForSnippetFn.generateShaderBasedBlenderGlueCode,
    kNoChildren, []⟩]

/-- Embedding of `kBuiltInCodeSnippetIDCount`: the number of `SkBuiltInCodeSnippetID`
enum values (the length of the built-in registry). -/
def kBuiltInCodeSnippetIDCount : Nat := fBuiltInCodeSnippets.length

/-- Embedding of `SkShaderCodeDictionary::getEntry(int)`: resolves a snippet id to its
descriptor — built-in for `0 ≤ id < kBuiltInCodeSnippetIDCount`,
user-defined at offset `id - kBuiltInCodeSnippetIDCount`, and `nullptr`
for negative or out-of-range ids. -/
def SkShaderCodeDictionary.getEntry (d : SkShaderCodeDictionary)
    (codeSnippetID : Int) : Option SkShaderSnippet :=
  if codeSnippetID < 0 then
    none
  else if codeSnippetID < (kBuiltInCodeSnippetIDCount : Int) then
    fBuiltInCodeSnippets.get? codeSnippetID.toNat
  else
    let userDefinedCodeSnippetID := codeSnippetID.toNat - kBuiltInCodeSnippetIDCount
    if userDefinedCodeSnippetID < d.fUserDefinedCodeSnippets.length then
      d.fUserDefinedCodeSnippets.get? userDefinedCodeSnippetID
    else
      none

/-- Embedding of `SkShaderCodeDictionary::isValidID`. -/
def SkShaderCodeDictionary.isValidID (d : SkShaderCodeDictionary)
    (snippetID : Int) : Bool :=
  if snippetID < 0 then
    false
  else if snippetID < (kBuiltInCodeSnippetIDCount : Int) then
    true
  else
    snippetID.toNat - kBuiltInCodeSnippetIDCount < d.fUserDefinedCodeSnippets.length

/-- Embedding of `SkShaderCodeDictionary::addUserDefinedSnippet` (the full-argument
overload): appends a freshly built descriptor to the dictionary-owned
storage and returns the global id `kBuiltInCodeSnippetIDCount + position`. -/
def SkShaderCodeDictionary.addUserDefinedSnippet (d : SkShaderCodeDictionary)
    (name : String) (uniforms : List SkUniform)
    (snippetRequirementFlags : SnippetRequirementFlags)
    (texturesAndSamplers : List SkTextureAndSampler)
    (functionName : String)
    (expressionGenerator : GenerateExpressionForSnippetFn)
    (numChildren : Nat)
    (dataPayloadExpectations : List SkPaintParamsKey.DataPayloadField) :
    Nat × SkShaderCodeDictionary :=
  let d' := { d with
    fUserDefinedCodeSnippets := d.fUserDefinedCodeSnippets ++
      [⟨name, uniforms, snippetRequirementFlags, texturesAndSamplers,
        functionName, expressionGenerator, numChildren,
        dataPayloadExpectations⟩] }
  (kBuiltInCodeSnippetIDCount + d'.fUserDefinedCodeSnippets.length - 1, d')

/-! ### Runtime-effect snippet interning -/

/-- Embedding of `SkRuntimeEffect::Uniform::Type`. -/
inductive SkRuntimeEffectUniformType where
  | kFloat | kFloat2 | kFloat3 | kFloat4
  | kFloat2x2 | kFloat3x3 | kFloat4x4
  | kInt | kInt2 | kInt3 | kInt4
  deriving DecidableEq

/-- Embedding of `SkRuntimeEffect::Uniform`: name, type, array count and the two flag
bits read by this translation unit (`kHalfPrecision_Flag`,
`kArray_Flag`). -/
structure SkRuntimeEffectUniform where
  name : String
  type : SkRuntimeEffectUniformType
  count : Nat
  isHalfPrecision : Bool
  isArray : Bool
  deriving DecidableEq

/-- Embedding of `SkRuntimeEffect` reduced to what this translation unit reads: the
SkSL program content (hashed by `SkRuntimeEffectPriv::Hash`), the uniform
declarations, and `uniformSize()` (the uniform-block byte size, computed
by the effect outside this file and carried here as data). -/
structure SkRuntimeEffect where
  program : String
  uniforms : List SkRuntimeEffectUniform
  uniformSize : Nat
  deriving DecidableEq

/-- Embedding of `uniform_type_to_sksl_type`: maps a runtime-effect uniform type to an
`SkSLType`, demoting to half/short precision when the
`kHalfPrecision_Flag` is set. -/
def uniform_type_to_sksl_type (u : SkRuntimeEffectUniform) : SkSLType :=
  if u.isHalfPrecision then
    match u.type with
    | SkRuntimeEffectUniformType.kFloat => SkSLType.kHalf
    | SkRuntimeEffectUniformType.kFloat2 => SkSLType.kHalf2
    | SkRuntimeEffectUniformType.kFloat3 => SkSLType.kHalf3
    | SkRuntimeEffectUniformType.kFloat4 => SkSLType.kHalf4
    | SkRuntimeEffectUniformType.kFloat2x2 => SkSLType.kHalf2x2
    | SkRuntimeEffectUniformType.kFloat3x3 => SkSLType.kHalf3x3
    | SkRuntimeEffectUniformType.kFloat4x4 => SkSLType.kHalf4x4
    | SkRuntimeEffectUniformType.kInt => SkSLType.kShort
    | SkRuntimeEffectUniformType.kInt2 => SkSLType.kShort2
    | SkRuntimeEffectUniformType.kInt3 => SkSLType.kShort3
    | SkRuntimeEffectUniformType.kInt4 => SkSLType.kShort4
  else
    match u.type with
    | SkRuntimeEffectUniformType.kFloat => SkSLType.kFloat
    | SkRuntimeEffectUniformType.kFloat2 => SkSLType.kFloat2
    | SkRuntimeEffectUniformType.kFloat3 => SkSLType.kFloat3
    | SkRuntimeEffectUniformType.kFloat4 => SkSLType.kFloat4
    | SkRuntimeEffectUniformType.kFloat2x2 => SkSLType.kFloat2x2
    | SkRuntimeEffectUniformType.kFloat3x3 => SkSLType.kFloat3x3
    | SkRuntimeEffectUniformType.kFloat4x4 => SkSLType.kFloat4x4
    | SkRuntimeEffectUniformType.kInt => SkSLType.kInt
    | SkRuntimeEffectUniformType.kInt2 => SkSLType.kInt2
    | SkRuntimeEffectUniformType.kInt3 => SkSLType.kInt3
    | SkRuntimeEffectUniformType.kInt4 => SkSLType.kInt4

/-- The per-uniform conversion performed inside
`SkShaderCodeDictionary::convertUniforms` for indices `1 ≤ index`:
build an `SkUniform` from `uniforms[index - 1]`, as an array uniform when
the `kArray_Flag` is set.  (`addTextToArena` only copies the name into
dictionary-owned memory and is the identity here.) -/
def SkShaderCodeDictionary.convertOneUniform (u : SkRuntimeEffectUniform) :
    SkUniform :=
  if u.isArray then
    ⟨u.name, uniform_type_to_sksl_type u, some u.count⟩
  else
    ⟨u.name, uniform_type_to_sksl_type u, none⟩

/-- Embedding of `SkShaderCodeDictionary::convertUniforms`: the effect's uniform list
converted to `SkUniform`s, with a `localMatrix` `float4x4` uniform placed
at the front (index 0 of the initialized array). -/
def SkShaderCodeDictionary.convertUniforms (effect : SkRuntimeEffect) :
    List SkUniform :=
  ⟨"localMatrix", SkSLType.kFloat4x4, none⟩ ::
    effect.uniforms.map SkShaderCodeDictionary.convertOneUniform

/-- Embedding of `SkShaderCodeDictionary::findOrCreateRuntimeEffectSnippet`: interns a
runtime effect by the secondary key `(program hash, uniform size)`.
`SkRuntimeEffectPriv::Hash` hashes the effect's SkSL program content with
an external hash routine (`SkOpts::hash_fn`, not part of this repository),
modelled as the parameter `hashFn` applied to the program content.  On a
hit the cached snippet id is returned with the dictionary unchanged; on a
miss a `"RuntimeEffect"` descriptor is registered (converted uniforms,
`kLocalCoords` requirement, runtime-shader glue strategy, no children)
and the key-to-id mapping is cached. -/
def SkShaderCodeDictionary.findOrCreateRuntimeEffectSnippet
    (hashFn : String → Nat) (d : SkShaderCodeDictionary)
    (effect : SkRuntimeEffect) : Nat × SkShaderCodeDictionary :=
  let key : Nat × Nat := (hashFn effect.program, effect.uniformSize)
  match d.fRuntimeEffectMap.find? (fun p => p.1 == key) with
  | some p => (p.2, d)
  | none =>
      let r := d.addUserDefinedSnippet "RuntimeEffect"
        (SkShaderCodeDictionary.convertUniforms effect)
        SnippetRequirementFlags.kLocalCoords [] kRuntimeShaderName
        GenerateExpressionForSnippetFn.generateRuntimeShaderGlueCode 0 []
      (r.1, { r.2 with fRuntimeEffectMap := (key, r.1) :: r.2.fRuntimeEffectMap })

/-! ### Dictionary lemmas -/

/-- Successive successful `findOrCreate` calls, used to talk about "any
two calls" on an evolving dictionary. -/
inductive SkShaderCodeDictionary.Reaches :
    SkShaderCodeDictionary → SkShaderCodeDictionary → Prop where
  | refl (d : SkShaderCodeDictionary) : SkShaderCodeDictionary.Reaches d d
  | step {d d1 d2 : SkShaderCodeDictionary} {k : List Nat} {b : Nat}
      {e : SkShaderCodeDictionary.Entry} :
      SkShaderCodeDictionary.Reaches d d1 →
      d1.findOrCreate k b = some (e, d2) →
      SkShaderCodeDictionary.Reaches d d2

theorem SkShaderCodeDictionary.findOrCreate_cases
    {d d' : SkShaderCodeDictionary} {k : List Nat} {b : Nat}
    {e : SkShaderCodeDictionary.Entry}
    (h : d.findOrCreate k b = some (e, d')) :
    (d.fHash.find? (fun q => q.1 == k) = some (k, e) ∧ d' = d ∧
      d.fEntryVector.get? e.uniqueID = some (some e)) ∨
    (d.fHash.find? (fun q => q.1 == k) = none ∧
      e = ⟨k, b, d.fEntryVector.length⟩ ∧
      d' = { d with
        fEntryVector := d.fEntryVector ++ [some e],
        fHash := (k, e) :: d.fHash }) := by
  unfold SkShaderCodeDictionary.findOrCreate at h
  split at h
  next p hf =>
    split at h
    next hg =>
      simp only [Option.some.injEq, Prod.mk.injEq] at h
      obtain ⟨he, hd⟩ := h
      subst he
      have hp := List.find?_some hf
      simp only [beq_iff_eq] at hp
      left
      refine ⟨?_, hd.symm, hg⟩
      rw [hf]
      cases p with
      | mk p1 p2 =>
          simp only at hp
          rw [hp]
    next hg => exact absurd h (by simp)
  next hf =>
    simp only [Option.some.injEq, Prod.mk.injEq] at h
    right
    refine ⟨hf, h.1.symm, ?_⟩
    rw [← h.2, ← h.1]

/-- After a successful `findOrCreate` for key `k`, the hash index finds
exactly the returned entry under `k`. -/
theorem SkShaderCodeDictionary.findOrCreate_find?_self
    {d d' : SkShaderCodeDictionary} {k : List Nat} {b : Nat}
    {e : SkShaderCodeDictionary.Entry}
    (h : d.findOrCreate k b = some (e, d')) :
    d'.fHash.find? (fun q => q.1 == k) = some (k, e) := by
  rcases SkShaderCodeDictionary.findOrCreate_cases h with
    ⟨hf, rfl, _⟩ | ⟨hf, he, rfl⟩
  · exact hf
  · simp

/-- A hash-index result for key `k` survives any later `findOrCreate`
call (entries are never removed and a key is only inserted on a failed
lookup). -/
theorem SkShaderCodeDictionary.findOrCreate_find?_persist
    {d d' : SkShaderCodeDictionary} {k k' : List Nat} {b : Nat}
    {e : SkShaderCodeDictionary.Entry}
    {p : List Nat × SkShaderCodeDictionary.Entry}
    (hp : d.fHash.find? (fun q => q.1 == k) = some p)
    (h : d.findOrCreate k' b = some (e, d')) :
    d'.fHash.find? (fun q => q.1 == k) = some p := by
  rcases SkShaderCodeDictionary.findOrCreate_cases h with
    ⟨_, rfl, _⟩ | ⟨hf, _, rfl⟩
  · exact hp
  · have hkk : (k' == k) = false := by
      by_contra hx
      simp only [Bool.not_eq_false, beq_iff_eq] at hx
      subst hx
      rw [hf] at hp
      exact absurd hp (by simp)
    simp only [List.find?_cons, hkk]
    exact hp

theorem SkShaderCodeDictionary.reaches_find?_persist
    {d d' : SkShaderCodeDictionary} {k : List Nat}
    {p : List Nat × SkShaderCodeDictionary.Entry}
    (hp : d.fHash.find? (fun q => q.1 == k) = some p)
    (hr : SkShaderCodeDictionary.Reaches d d') :
    d'.fHash.find? (fun q => q.1 == k) = some p := by
  induction hr with
  | refl => exact hp
  | step _ hstep ih =>
      exact SkShaderCodeDictionary.findOrCreate_find?_persist ih hstep

/-- The operation `findOrCreate` preserves the dictionary invariant. -/
theorem SkShaderCodeDictionary.findOrCreate_WellFormed
    {d d' : SkShaderCodeDictionary} {k : List Nat} {b : Nat}
    {e : SkShaderCodeDictionary.Entry}
    (hWF : d.WellFormed) (h : d.findOrCreate k b = some (e, d')) :
    d'.WellFormed := by
  obtain ⟨hhead, hkey, hentry, hdense⟩ := hWF
  rcases SkShaderCodeDictionary.findOrCreate_cases h with
    ⟨_, rfl, _⟩ | ⟨hf, he, rfl⟩
  · exact ⟨hhead, hkey, hentry, hdense⟩
  · obtain ⟨v, hv⟩ : ∃ v, d.fEntryVector = none :: v := by
      cases hve : d.fEntryVector with
      | nil => rw [hve] at hhead; exact absurd hhead (by simp)
      | cons a v =>
          rw [hve] at hhead
          simp only [List.head?_cons, Option.some.injEq] at hhead
          exact ⟨v, by rw [hhead]⟩
    refine ⟨?_, ?_, ?_, ?_⟩
    · simp only [hv, List.cons_append, List.head?_cons]
    · intro p hp
      rcases List.mem_cons.mp hp with rfl | hmem
      · rw [he]
      · exact hkey p hmem
    · intro p hp
      rcases List.mem_cons.mp hp with rfl | hmem
      · simp only [he]
        rw [List.get?_eq_getElem?,
          List.getElem?_append_right (Nat.le_refl _), Nat.sub_self]
        rfl
      · have hold := hentry p hmem
        have hlt : p.2.uniqueID < d.fEntryVector.length := by
          rw [List.get?_eq_getElem?] at hold
          exact (List.getElem?_eq_some.mp hold).1
        rw [List.get?_eq_getElem?] at hold ⊢
        rw [List.getElem?_append_left hlt]
        exact hold
    · intro i hilen hi1
      simp only [List.length_append, List.length_cons, List.length_nil] at hilen
      rw [List.get?_eq_getElem?]
      by_cases hlt : i < d.fEntryVector.length
      · rw [List.getElem?_append_left hlt, ← List.get?_eq_getElem?]
        exact hdense i hlt hi1
      · have hieq : i = d.fEntryVector.length := by omega
        rw [List.getElem?_append_right (by omega), hieq, Nat.sub_self]
        simp

theorem SkShaderCodeDictionary.reaches_WellFormed
    {d d' : SkShaderCodeDictionary}
    (hWF : d.WellFormed) (hr : SkShaderCodeDictionary.Reaches d d') :
    d'.WellFormed := by
  induction hr with
  | refl => exact hWF
  | step _ hstep ih =>
      exact SkShaderCodeDictionary.findOrCreate_WellFormed ih hstep

/-! ### Claims about the dictionary cache -/

/-- C1: For a fixed registry state, any two calls to `findOrCreate` whose
locked keys are byte-identical return the same Entry with the same
identity both times.  The second call may happen after any number of
further `findOrCreate` calls (`Reaches`); its state is also unchanged
because it is a cache hit. -/
theorem findOrCreate_deterministic
    (d d1 d2 d3 : SkShaderCodeDictionary) (k1 k2 : List Nat) (b1 b2 : Nat)
    (e1 e2 : SkShaderCodeDictionary.Entry)
    (h1 : d.findOrCreate k1 b1 = some (e1, d1))
    (hr : SkShaderCodeDictionary.Reaches d1 d2)
    (h2 : d2.findOrCreate k2 b2 = some (e2, d3))
    (hk : k1 = k2) :
    e2 = e1 ∧ e2.uniqueID = e1.uniqueID ∧ d3 = d2 := by
  subst hk
  have hfind := SkShaderCodeDictionary.reaches_find?_persist
    (SkShaderCodeDictionary.findOrCreate_find?_self h1) hr
  rcases SkShaderCodeDictionary.findOrCreate_cases h2 with
    ⟨hf2, hd, _⟩ | ⟨hf2, _, _⟩
  · rw [hfind] at hf2
    simp only [Option.some.injEq, Prod.mk.injEq] at hf2
    exact ⟨hf2.2.symm, by rw [hf2.2], hd⟩
  · rw [hfind] at hf2
    exact absurd hf2 (by simp)

theorem findOrCreate_deterministic_witness :
    SkShaderCodeDictionary.ctor.findOrCreate [7] 0 =
      some (⟨[7], 0, 1⟩,
        ⟨[none, some ⟨[7], 0, 1⟩], [([7], ⟨[7], 0, 1⟩)], [], []⟩) ∧
    SkShaderCodeDictionary.Reaches
      ⟨[none, some ⟨[7], 0, 1⟩], [([7], ⟨[7], 0, 1⟩)], [], []⟩
      ⟨[none, some ⟨[7], 0, 1⟩], [([7], ⟨[7], 0, 1⟩)], [], []⟩ ∧
    SkShaderCodeDictionary.findOrCreate
      ⟨[none, some ⟨[7], 0, 1⟩], [([7], ⟨[7], 0, 1⟩)], [], []⟩ [7] 1 =
      some (⟨[7], 0, 1⟩,
        ⟨[none, some ⟨[7], 0, 1⟩], [([7], ⟨[7], 0, 1⟩)], [], []⟩) ∧
    ((⟨[7], 0, 1⟩ : SkShaderCodeDictionary.Entry) = ⟨[7], 0, 1⟩ ∧
      SkShaderCodeDictionary.Entry.uniqueID ⟨[7], 0, 1⟩ =
        SkShaderCodeDictionary.Entry.uniqueID ⟨[7], 0, 1⟩ ∧
      (⟨[none, some ⟨[7], 0, 1⟩], [([7], ⟨[7], 0, 1⟩)], [], []⟩ :
        SkShaderCodeDictionary) =
        ⟨[none, some ⟨[7], 0, 1⟩], [([7], ⟨[7], 0, 1⟩)], [], []⟩) :=
  ⟨by decide, SkShaderCodeDictionary.Reaches.refl _, by decide,
    findOrCreate_deterministic SkShaderCodeDictionary.ctor
      ⟨[none, some ⟨[7], 0, 1⟩], [([7], ⟨[7], 0, 1⟩)], [], []⟩
      ⟨[none, some ⟨[7], 0, 1⟩], [([7], ⟨[7], 0, 1⟩)], [], []⟩
      ⟨[none, some ⟨[7], 0, 1⟩], [([7], ⟨[7], 0, 1⟩)], [], []⟩
      [7] [7] 0 1 ⟨[7], 0, 1⟩ ⟨[7], 0, 1⟩ (by decide)
      (SkShaderCodeDictionary.Reaches.refl _) (by decide) rfl⟩

/-- C2: Any two keys submitted to `findOrCreate` that differ in at least
one byte receive distinct identities (again allowing any number of
intervening calls between the two submissions). -/
theorem findOrCreate_discriminates
    (d d1 d2 d3 : SkShaderCodeDictionary) (k1 k2 : List Nat) (b1 b2 : Nat)
    (e1 e2 : SkShaderCodeDictionary.Entry)
    (hWF : d.WellFormed)
    (h1 : d.findOrCreate k1 b1 = some (e1, d1))
    (hr : SkShaderCodeDictionary.Reaches d1 d2)
    (h2 : d2.findOrCreate k2 b2 = some (e2, d3))
    (hne : k1 ≠ k2) :
    e1.uniqueID ≠ e2.uniqueID := by
  have hWF2 := SkShaderCodeDictionary.reaches_WellFormed
    (SkShaderCodeDictionary.findOrCreate_WellFormed hWF h1) hr
  obtain ⟨hhead2, hkey2, hentry2, hdense2⟩ := hWF2
  have hfind1 := SkShaderCodeDictionary.reaches_find?_persist
    (SkShaderCodeDictionary.findOrCreate_find?_self h1) hr
  have hmem1 : (k1, e1) ∈ d2.fHash := List.mem_of_find?_eq_some hfind1
  have hget1 : d2.fEntryVector.get? e1.uniqueID = some (some e1) :=
    hentry2 _ hmem1
  have hlt1 : e1.uniqueID < d2.fEntryVector.length := by
    rw [List.get?_eq_getElem?] at hget1
    exact (List.getElem?_eq_some.mp hget1).1
  rcases SkShaderCodeDictionary.findOrCreate_cases h2 with
    ⟨hf2, _, _⟩ | ⟨_, he2, _⟩
  · have hmem2 : (k2, e2) ∈ d2.fHash := List.mem_of_find?_eq_some hf2
    have hget2 : d2.fEntryVector.get? e2.uniqueID = some (some e2) :=
      hentry2 _ hmem2
    intro hid
    rw [hid, hget2] at hget1
    simp only [Option.some.injEq] at hget1
    have hk1 : e1.paintParamsKey = k1 := hkey2 _ hmem1
    have hk2 : e2.paintParamsKey = k2 := hkey2 _ hmem2
    rw [hget1] at hk2
    rw [hk1] at hk2
    exact hne hk2
  · rw [he2]
    intro hid
    simp only at hid
    omega

theorem findOrCreate_discriminates_witness :
    SkShaderCodeDictionary.ctor.WellFormed ∧
    SkShaderCodeDictionary.ctor.findOrCreate [0] 0 =
      some (⟨[0], 0, 1⟩,
        ⟨[none, some ⟨[0], 0, 1⟩], [([0], ⟨[0], 0, 1⟩)], [], []⟩) ∧
    SkShaderCodeDictionary.findOrCreate
      ⟨[none, some ⟨[0], 0, 1⟩], [([0], ⟨[0], 0, 1⟩)], [], []⟩ [1] 0 =
      some (⟨[1], 0, 2⟩,
        ⟨[none, some ⟨[0], 0, 1⟩, some ⟨[1], 0, 2⟩],
          [([1], ⟨[1], 0, 2⟩), ([0], ⟨[0], 0, 1⟩)], [], []⟩) ∧
    SkShaderCodeDictionary.Entry.uniqueID ⟨[0], 0, 1⟩ ≠
      SkShaderCodeDictionary.Entry.uniqueID ⟨[1], 0, 2⟩ :=
  ⟨by decide, by decide, by decide,
    findOrCreate_discriminates SkShaderCodeDictionary.ctor
      ⟨[none, some ⟨[0], 0, 1⟩], [([0], ⟨[0], 0, 1⟩)], [], []⟩
      ⟨[none, some ⟨[0], 0, 1⟩], [([0], ⟨[0], 0, 1⟩)], [], []⟩
      ⟨[none, some ⟨[0], 0, 1⟩, some ⟨[1], 0, 2⟩],
        [([1], ⟨[1], 0, 2⟩), ([0], ⟨[0], 0, 1⟩)], [], []⟩
      [0] [1] 0 0 ⟨[0], 0, 1⟩ ⟨[1], 0, 2⟩ (by decide) (by decide)
      (SkShaderCodeDictionary.Reaches.refl _) (by decide) (by decide)⟩

/-- C3: Identity 0 is reserved as invalid (the constructor seeds the
dense vector with a single `nullptr`); each new Entry created by
`findOrCreate` gets the next sequential identity (the current vector
length, hence `1..N` in first-seen order); the cache is append-only
(existing slots are never changed) and a cache hit returns the stored
entry with the dictionary state unchanged; the invariant is preserved. -/
theorem findOrCreate_append_only
    (d : SkShaderCodeDictionary) (k : List Nat) (b : Nat)
    (hWF : d.WellFormed) :
    (SkShaderCodeDictionary.ctor.fEntryVector = [none] ∧
      SkShaderCodeDictionary.ctor.WellFormed) ∧
    (∀ p, d.fHash.find? (fun q => q.1 == k) = some p →
      d.findOrCreate k b = some (p.2, d)) ∧
    (d.fHash.find? (fun q => q.1 == k) = none →
      d.findOrCreate k b =
        some (⟨k, b, d.fEntryVector.length⟩,
          { d with
            fEntryVector :=
              d.fEntryVector ++ [some ⟨k, b, d.fEntryVector.length⟩],
            fHash := (k, ⟨k, b, d.fEntryVector.length⟩) :: d.fHash }) ∧
      1 ≤ d.fEntryVector.length) ∧
    (∀ e d', d.findOrCreate k b = some (e, d') →
      d'.WellFormed ∧
      d.fEntryVector.length ≤ d'.fEntryVector.length ∧
      (∀ i, i < d.fEntryVector.length →
        d'.fEntryVector.get? i = d.fEntryVector.get? i)) := by
  obtain ⟨hhead, hkey, hentry, hdense⟩ := hWF
  refine ⟨⟨rfl, by decide⟩, ?_, ?_, ?_⟩
  · intro p hp
    unfold SkShaderCodeDictionary.findOrCreate
    simp only [hp]
    rw [if_pos (hentry p (List.mem_of_find?_eq_some hp))]
  · intro hmiss
    constructor
    · unfold SkShaderCodeDictionary.findOrCreate
      rw [hmiss]
    · cases hve : d.fEntryVector with
      | nil => rw [hve] at hhead; exact absurd hhead (by simp)
      | cons a v => simp
  · intro e d' h
    refine ⟨SkShaderCodeDictionary.findOrCreate_WellFormed
      ⟨hhead, hkey, hentry, hdense⟩ h, ?_, ?_⟩
    all_goals
      rcases SkShaderCodeDictionary.findOrCreate_cases h with
        ⟨_, rfl, _⟩ | ⟨_, _, rfl⟩
    · exact Nat.le_refl _
    · simp only [List.length_append]; omega
    · intro i _; rfl
    · intro i hi
      simp only [List.get?_eq_getElem?]
      rw [List.getElem?_append_left hi]

theorem findOrCreate_append_only_witness :
    SkShaderCodeDictionary.ctor.WellFormed ∧
    SkShaderCodeDictionary.ctor.findOrCreate [3] 0 =
      some (⟨[3], 0, 1⟩,
        ⟨[none, some ⟨[3], 0, 1⟩], [([3], ⟨[3], 0, 1⟩)], [], []⟩) ∧
    1 ≤ SkShaderCodeDictionary.ctor.fEntryVector.length :=
  ⟨by decide,
    by
      have hx := (findOrCreate_append_only
        SkShaderCodeDictionary.ctor [3] 0 (by decide)).2.2.1 (by decide)
      exact ⟨hx.1, hx.2⟩⟩

/-- C5: Round-trip through the cache: for every Entry returned by a
`findOrCreate` call, looking up that Entry's identity returns the
original Entry. -/
theorem findOrCreate_lookup_roundtrip
    (d d' : SkShaderCodeDictionary) (k : List Nat) (b : Nat)
    (e : SkShaderCodeDictionary.Entry)
    (hWF : d.WellFormed)
    (h : d.findOrCreate k b = some (e, d')) :
    d'.lookup e.uniqueID = Except.ok (some e) := by
  obtain ⟨hhead, hkey, hentry, hdense⟩ := hWF
  obtain ⟨v, hv⟩ : ∃ v, d.fEntryVector = none :: v := by
    cases hve : d.fEntryVector with
    | nil => rw [hve] at hhead; exact absurd hhead (by simp)
    | cons a v =>
        rw [hve] at hhead
        simp only [List.head?_cons, Option.some.injEq] at hhead
        exact ⟨v, by rw [hhead]⟩
  rcases SkShaderCodeDictionary.findOrCreate_cases h with
    ⟨_, rfl, hget⟩ | ⟨_, he, rfl⟩
  · have hne0 : e.uniqueID ≠ 0 := by
      intro h0
      rw [h0, hv] at hget
      exact absurd hget (by simp)
    unfold SkShaderCodeDictionary.lookup
    rw [if_neg (by simp [SkUniquePaintParamsID.isValid, hne0])]
    rw [hget]
  · have hlen : e.uniqueID = d.fEntryVector.length := by rw [he]
    have hne0 : e.uniqueID ≠ 0 := by rw [hlen, hv]; simp
    unfold SkShaderCodeDictionary.lookup
    rw [if_neg (by simp [SkUniquePaintParamsID.isValid, hne0])]
    have hget : (d.fEntryVector ++ [some e]).get? e.uniqueID = some (some e) := by
      rw [hlen, List.get?_eq_getElem?,
        List.getElem?_append_right (Nat.le_refl _), Nat.sub_self]
      rfl
    simp only [hget]

theorem findOrCreate_lookup_roundtrip_witness :
    SkShaderCodeDictionary.ctor.WellFormed ∧
    SkShaderCodeDictionary.ctor.findOrCreate [9] 0 =
      some (⟨[9], 0, 1⟩,
        ⟨[none, some ⟨[9], 0, 1⟩], [([9], ⟨[9], 0, 1⟩)], [], []⟩) ∧
    SkShaderCodeDictionary.lookup
      ⟨[none, some ⟨[9], 0, 1⟩], [([9], ⟨[9], 0, 1⟩)], [], []⟩
      (SkShaderCodeDictionary.Entry.uniqueID ⟨[9], 0, 1⟩) =
      Except.ok (some ⟨[9], 0, 1⟩) :=
  ⟨by decide, by decide,
    findOrCreate_lookup_roundtrip SkShaderCodeDictionary.ctor
      ⟨[none, some ⟨[9], 0, 1⟩], [([9], ⟨[9], 0, 1⟩)], [], []⟩
      [9] 0 ⟨[9], 0, 1⟩ (by decide) (by decide)⟩

/-- C4 (counterexample): for an out-of-range nonzero identity, `lookup`
does not return "no result": it trips the bounds assertion
(`SkASSERT(codeID.asUInt() < fEntryVector.size())`), modelled as
`Except.error ()`.  Identity 5 was never issued by the fresh dictionary,
whose entry vector has length 1. -/
theorem lookup_out_of_range_asserts :
    SkShaderCodeDictionary.ctor.lookup 5 = Except.error () ∧
    (Except.error () : Except Unit (Option SkShaderCodeDictionary.Entry)) ≠
      Except.ok none := by
  constructor
  · rfl
  · intro h
    exact Except.noConfusion h

/-- C4 (amended): `lookup` returns no result for identity 0; for a
nonzero out-of-range identity it aborts via the bounds assertion
(contract violation) rather than returning "no result"; for every
previously issued identity (`1 ≤ id < fEntryVector.length`) it returns
an Entry. -/
theorem lookup_spec (d : SkShaderCodeDictionary) (hWF : d.WellFormed) :
    d.lookup 0 = Except.ok none ∧
    (∀ id, id ≠ 0 → d.fEntryVector.length ≤ id →
      d.lookup id = Except.error ()) ∧
    (∀ id, 1 ≤ id → id < d.fEntryVector.length →
      ∃ e, d.lookup id = Except.ok (some e)) := by
  obtain ⟨hhead, hkey, hentry, hdense⟩ := hWF
  refine ⟨rfl, ?_, ?_⟩
  · intro id hne hle
    unfold SkShaderCodeDictionary.lookup
    rw [if_neg (by simp [SkUniquePaintParamsID.isValid, hne])]
    have hnone : d.fEntryVector.get? id = none := by
      rw [List.get?_eq_getElem?]
      exact List.getElem?_eq_none hle
    simp only [hnone]
  · intro id h1 hlt
    have hsome : ∃ o, d.fEntryVector.get? id = some o := by
      rw [List.get?_eq_getElem?]
      exact ⟨d.fEntryVector[id], List.getElem?_eq_getElem hlt⟩
    obtain ⟨o, ho⟩ := hsome
    have hnn := hdense id hlt h1
    rw [ho] at hnn
    cases o with
    | none => exact absurd rfl hnn
    | some e =>
        refine ⟨e, ?_⟩
        unfold SkShaderCodeDictionary.lookup
        rw [if_neg (by simp [SkUniquePaintParamsID.isValid]; omega)]
        simp only [ho]

theorem lookup_spec_witness :
    SkShaderCodeDictionary.ctor.WellFormed ∧
    SkShaderCodeDictionary.ctor.lookup 0 = Except.ok none :=
  ⟨by decide, (lookup_spec SkShaderCodeDictionary.ctor (by decide)).1⟩

/-! ### Claims about the snippet registry -/

instance : Inhabited SkShaderSnippet :=
  ⟨⟨"", [], SnippetRequirementFlags.kNone, [], "",
    GenerateExpressionForSnippetFn.generateDefaultGlueCode, 0, []⟩⟩

/-- Characterization of `findOrCreateRuntimeEffectSnippet`: either the
secondary key hits the interning map and the dictionary is unchanged, or
a new `"RuntimeEffect"` descriptor is appended and the mapping cached. -/
theorem SkShaderCodeDictionary.findOrCreateRuntimeEffectSnippet_cases
    (hashFn : String → Nat) (d : SkShaderCodeDictionary)
    (effect : SkRuntimeEffect) :
    (∃ p, d.fRuntimeEffectMap.find?
        (fun q => q.1 == (hashFn effect.program, effect.uniformSize)) =
          some p ∧
      SkShaderCodeDictionary.findOrCreateRuntimeEffectSnippet hashFn d
        effect = (p.2, d)) ∨
    (d.fRuntimeEffectMap.find?
        (fun q => q.1 == (hashFn effect.program, effect.uniformSize)) =
          none ∧
      SkShaderCodeDictionary.findOrCreateRuntimeEffectSnippet hashFn d
        effect =
        (kBuiltInCodeSnippetIDCount + d.fUserDefinedCodeSnippets.length,
          { d with
            fRuntimeEffectMap :=
              ((hashFn effect.program, effect.uniformSize),
                kBuiltInCodeSnippetIDCount +
                  d.fUserDefinedCodeSnippets.length) ::
                d.fRuntimeEffectMap,
            fUserDefinedCodeSnippets := d.fUserDefinedCodeSnippets ++
              [⟨"RuntimeEffect",
                SkShaderCodeDictionary.convertUniforms effect,
                SnippetRequirementFlags.kLocalCoords, [], kRuntimeShaderName,
                GenerateExpressionForSnippetFn.generateRuntimeShaderGlueCode,
                0, []⟩] })) := by
  unfold SkShaderCodeDictionary.findOrCreateRuntimeEffectSnippet
    SkShaderCodeDictionary.addUserDefinedSnippet
  cases hf : d.fRuntimeEffectMap.find?
      (fun q => q.1 == (hashFn effect.program, effect.uniformSize)) with
  | some p =>
      left
      exact ⟨p, rfl, by simp only [hf]⟩
  | none =>
      right
      refine ⟨rfl, ?_⟩
      simp only [hf]
      have harith : ∀ n : Nat, kBuiltInCodeSnippetIDCount + (n + 1) - 1 =
          kBuiltInCodeSnippetIDCount + n := fun n => by omega
      simp only [List.length_append, List.length_cons, List.length_nil,
        Nat.zero_add, harith]

/-- C6: For every snippet descriptor registered in the dictionary —
every built-in, and every descriptor synthesized by
`findOrCreateRuntimeEffectSnippet` — if its requirement flags mark
"needs transform" (`kLocalCoords`), its uniform list is non-empty and its
first declared uniform is a `float4x4`. -/
theorem needsTransform_first_uniform_matrix :
    (∀ s ∈ fBuiltInCodeSnippets, s.needsLocalCoords = true →
      s.fUniforms ≠ [] ∧ (s.fUniforms.headD default).type = SkSLType.kFloat4x4) ∧
    (∀ (hashFn : String → Nat) (d : SkShaderCodeDictionary)
      (effect : SkRuntimeEffect) (s : SkShaderSnippet),
      s ∈ (SkShaderCodeDictionary.findOrCreateRuntimeEffectSnippet hashFn d
        effect).2.fUserDefinedCodeSnippets →
      s ∉ d.fUserDefinedCodeSnippets →
      s.needsLocalCoords = true ∧
      s.fUniforms ≠ [] ∧ (s.fUniforms.headD default).type = SkSLType.kFloat4x4) := by
  constructor
  · decide
  · intro hashFn d effect s hmem hnew
    rcases SkShaderCodeDictionary.findOrCreateRuntimeEffectSnippet_cases
        hashFn d effect with ⟨p, _, heq⟩ | ⟨_, heq⟩
    · rw [heq] at hmem
      exact absurd hmem hnew
    · rw [heq] at hmem
      simp only [List.mem_append, List.mem_singleton] at hmem
      rcases hmem with hold | rfl
      · exact absurd hold hnew
      · refine ⟨rfl, ?_, rfl⟩
        unfold SkShaderCodeDictionary.convertUniforms
        simp

theorem needsTransform_first_uniform_matrix_witness :
    (fBuiltInCodeSnippets.getD 2 default ∈ fBuiltInCodeSnippets ∧
      (fBuiltInCodeSnippets.getD 2 default).needsLocalCoords = true) ∧
    ((fBuiltInCodeSnippets.getD 2 default).fUniforms ≠ [] ∧
      ((fBuiltInCodeSnippets.getD 2 default).fUniforms.headD default).type =
        SkSLType.kFloat4x4) :=
  ⟨⟨by decide, by decide⟩,
    needsTransform_first_uniform_matrix.1 _ (by decide) (by decide)⟩

/-- C9: `findOrCreateRuntimeEffectSnippet` interns by the pair
`(program content hash, uniform-block byte size)`: a second registration
with identical program content and uniform size returns the same snippet
identity with the dictionary (hence the descriptor storage) unchanged;
and on a miss the newly registered descriptor is a `"RuntimeEffect"`
snippet whose uniform list is the effect's converted uniform list
prefixed with one inherited-transform `float4x4` uniform. -/
theorem runtimeEffectSnippet_interning
    (hashFn : String → Nat) (d : SkShaderCodeDictionary)
    (e1 e2 : SkRuntimeEffect)
    (hprog : e1.program = e2.program)
    (hsize : e1.uniformSize = e2.uniformSize) :
    (SkShaderCodeDictionary.findOrCreateRuntimeEffectSnippet hashFn
        (SkShaderCodeDictionary.findOrCreateRuntimeEffectSnippet hashFn d
          e1).2 e2).1 =
      (SkShaderCodeDictionary.findOrCreateRuntimeEffectSnippet hashFn d e1).1 ∧
    (SkShaderCodeDictionary.findOrCreateRuntimeEffectSnippet hashFn
        (SkShaderCodeDictionary.findOrCreateRuntimeEffectSnippet hashFn d
          e1).2 e2).2 =
      (SkShaderCodeDictionary.findOrCreateRuntimeEffectSnippet hashFn d e1).2 ∧
    (d.fRuntimeEffectMap.find?
        (fun p => p.1 == (hashFn e1.program, e1.uniformSize)) = none →
      (SkShaderCodeDictionary.findOrCreateRuntimeEffectSnippet hashFn d
          e1).2.fUserDefinedCodeSnippets =
        d.fUserDefinedCodeSnippets ++
          [⟨"RuntimeEffect",
            ⟨"localMatrix", SkSLType.kFloat4x4, none⟩ ::
              e1.uniforms.map SkShaderCodeDictionary.convertOneUniform,
            SnippetRequirementFlags.kLocalCoords, [], kRuntimeShaderName,
            GenerateExpressionForSnippetFn.generateRuntimeShaderGlueCode,
            0, []⟩]) := by
  have hkey : (hashFn e2.program, e2.uniformSize) =
      (hashFn e1.program, e1.uniformSize) := by
    rw [hprog, hsize]
  rcases SkShaderCodeDictionary.findOrCreateRuntimeEffectSnippet_cases
      hashFn d e1 with ⟨p, hf1, heq1⟩ | ⟨hf1, heq1⟩
  · rw [heq1]
    rcases SkShaderCodeDictionary.findOrCreateRuntimeEffectSnippet_cases
        hashFn d e2 with ⟨q, hf2, heq2⟩ | ⟨hf2, heq2⟩
    · rw [hkey, hf1] at hf2
      rw [heq2]
      simp only [Option.some.injEq] at hf2
      refine ⟨by rw [hf2], rfl, fun hc => ?_⟩
      rw [hf1] at hc
      exact Option.noConfusion hc
    · rw [hkey, hf1] at hf2
      exact Option.noConfusion hf2
  · rw [heq1]
    have hf2 : (({ d with
        fRuntimeEffectMap :=
          ((hashFn e1.program, e1.uniformSize),
            kBuiltInCodeSnippetIDCount +
              d.fUserDefinedCodeSnippets.length) :: d.fRuntimeEffectMap,
        fUserDefinedCodeSnippets := d.fUserDefinedCodeSnippets ++
          [⟨"RuntimeEffect", SkShaderCodeDictionary.convertUniforms e1,
            SnippetRequirementFlags.kLocalCoords, [], kRuntimeShaderName,
            GenerateExpressionForSnippetFn.generateRuntimeShaderGlueCode,
            0, []⟩] } : SkShaderCodeDictionary).fRuntimeEffectMap.find?
          (fun q => q.1 == (hashFn e2.program, e2.uniformSize))) =
        some ((hashFn e1.program, e1.uniformSize),
          kBuiltInCodeSnippetIDCount + d.fUserDefinedCodeSnippets.length) := by
      simp only [List.find?_cons, hkey, beq_self_eq_true]
    rcases SkShaderCodeDictionary.findOrCreateRuntimeEffectSnippet_cases
        hashFn ({ d with
          fRuntimeEffectMap :=
            ((hashFn e1.program, e1.uniformSize),
              kBuiltInCodeSnippetIDCount +
                d.fUserDefinedCodeSnippets.length) :: d.fRuntimeEffectMap,
          fUserDefinedCodeSnippets := d.fUserDefinedCodeSnippets ++
            [⟨"RuntimeEffect", SkShaderCodeDictionary.convertUniforms e1,
              SnippetRequirementFlags.kLocalCoords, [], kRuntimeShaderName,
              GenerateExpressionForSnippetFn.generateRuntimeShaderGlueCode,
              0, []⟩] }) e2 with ⟨q, hfq, heq2⟩ | ⟨hfq, heq2⟩
    · rw [heq2]
      rw [hf2] at hfq
      simp only [Option.some.injEq] at hfq
      refine ⟨by rw [← hfq], rfl, fun _ => ?_⟩
      unfold SkShaderCodeDictionary.convertUniforms
      rfl
    · rw [hf2] at hfq
      exact Option.noConfusion hfq

def wRuntimeEffect : SkRuntimeEffect :=
  ⟨"half4 main(float2 p) \x7b return half4(1); \x7d",
    [⟨"u", SkRuntimeEffectUniformType.kFloat, 1, false, false⟩], 4⟩

theorem runtimeEffectSnippet_interning_witness :
    wRuntimeEffect.program = wRuntimeEffect.program ∧
    (SkShaderCodeDictionary.findOrCreateRuntimeEffectSnippet (fun _ => 0)
        (SkShaderCodeDictionary.findOrCreateRuntimeEffectSnippet (fun _ => 0)
          SkShaderCodeDictionary.ctor wRuntimeEffect).2 wRuntimeEffect).1 =
      (SkShaderCodeDictionary.findOrCreateRuntimeEffectSnippet (fun _ => 0)
        SkShaderCodeDictionary.ctor wRuntimeEffect).1 :=
  ⟨rfl, (runtimeEffectSnippet_interning (fun _ => 0)
    SkShaderCodeDictionary.ctor wRuntimeEffect wRuntimeEffect rfl rfl).1⟩

/-- C10: `getEntry` resolves a snippet id totally: the built-in
descriptor for `0 ≤ id < kBuiltInCodeSnippetIDCount`, the user-defined
descriptor at position `id - kBuiltInCodeSnippetIDCount` for ids in the
user-defined range, and `none` for every negative or out-of-range id;
and `isValidID id` holds exactly when `getEntry id` is non-null. -/
theorem getEntry_isValidID (d : SkShaderCodeDictionary) (id : Int) :
    (id < 0 → d.getEntry id = none) ∧
    (0 ≤ id → id < (kBuiltInCodeSnippetIDCount : Int) →
      d.getEntry id = fBuiltInCodeSnippets.get? id.toNat ∧
      (d.getEntry id).isSome = true) ∧
    ((kBuiltInCodeSnippetIDCount : Int) ≤ id →
      id.toNat - kBuiltInCodeSnippetIDCount <
        d.fUserDefinedCodeSnippets.length →
      d.getEntry id =
        d.fUserDefinedCodeSnippets.get?
          (id.toNat - kBuiltInCodeSnippetIDCount) ∧
      (d.getEntry id).isSome = true) ∧
    ((kBuiltInCodeSnippetIDCount : Int) +
        (d.fUserDefinedCodeSnippets.length : Int) ≤ id →
      d.getEntry id = none) ∧
    (d.isValidID id = true ↔ (d.getEntry id).isSome = true) := by
  have hcount : kBuiltInCodeSnippetIDCount = 15 := rfl
  refine ⟨?_, ?_, ?_, ?_, ?_⟩
  · intro hneg
    unfold SkShaderCodeDictionary.getEntry
    rw [if_pos hneg]
  · intro h0 hlt
    have hget : d.getEntry id = fBuiltInCodeSnippets.get? id.toNat := by
      unfold SkShaderCodeDictionary.getEntry
      rw [if_neg (by omega), if_pos hlt]
    refine ⟨hget, ?_⟩
    rw [hget, List.get?_eq_getElem?]
    have hlen : id.toNat < fBuiltInCodeSnippets.length := by
      have : fBuiltInCodeSnippets.length = 15 := rfl
      omega
    rw [List.getElem?_eq_getElem hlen]
    rfl
  · intro hge hlt
    have hget : d.getEntry id =
        d.fUserDefinedCodeSnippets.get? (id.toNat - kBuiltInCodeSnippetIDCount) := by
      unfold SkShaderCodeDictionary.getEntry
      rw [if_neg (by omega), if_neg (by omega), if_pos hlt]
    refine ⟨hget, ?_⟩
    rw [hget, List.get?_eq_getElem?]
    rw [List.getElem?_eq_getElem hlt]
    rfl
  · intro hbig
    unfold SkShaderCodeDictionary.getEntry
    rw [if_neg (by omega), if_neg (by omega), if_neg (by omega)]
  · unfold SkShaderCodeDictionary.getEntry SkShaderCodeDictionary.isValidID
    by_cases hneg : id < 0
    · rw [if_pos hneg, if_pos hneg]
      simp
    · rw [if_neg hneg, if_neg hneg]
      by_cases hlt : id < (kBuiltInCodeSnippetIDCount : Int)
      · rw [if_pos hlt, if_pos hlt]
        have hlen : id.toNat < fBuiltInCodeSnippets.length := by
          have : fBuiltInCodeSnippets.length = 15 := rfl
          omega
        rw [List.get?_eq_getElem?, List.getElem?_eq_getElem hlen]
        simp
      · rw [if_neg hlt, if_neg hlt]
        by_cases huser : id.toNat - kBuiltInCodeSnippetIDCount <
            d.fUserDefinedCodeSnippets.length
        · rw [if_pos huser]
          rw [List.get?_eq_getElem?, List.getElem?_eq_getElem huser]
          simp [huser]
        · rw [if_neg huser]
          simp [huser]

theorem getEntry_isValidID_witness :
    (0 : Int) ≤ 1 ∧
    SkShaderCodeDictionary.ctor.getEntry 1 =
      fBuiltInCodeSnippets.get? (Int.toNat 1) ∧
    SkShaderCodeDictionary.ctor.getEntry (-3) = none :=
  ⟨by decide,
    ((getEntry_isValidID SkShaderCodeDictionary.ctor 1).2.1 (by decide)
      (by decide)).1,
    (getEntry_isValidID SkShaderCodeDictionary.ctor (-3)).1 (by decide)⟩

/-! ### Decimal mangling suffixes are injective

`get_mangled_name` and `getMangledUniformName` suffix names with
`std::to_string` of the block position, modelled by `Nat.repr`.  The
lemmas below prove `Nat.repr` injective via a decimal-evaluation
round-trip, so position mangling never collides. -/

theorem toDigitsCore_append (b : Nat) :
    ∀ (f n : Nat) (acc : List Char),
      Nat.toDigitsCore b f n acc = Nat.toDigitsCore b f n [] ++ acc := by
  intro f
  induction f with
  | zero => intro n acc; simp [Nat.toDigitsCore]
  | succ f ih =>
      intro n acc
      simp only [Nat.toDigitsCore]
      by_cases h : n / b = 0
      · simp [h]
      · simp only [h, if_false]
        rw [ih (n / b) (Nat.digitChar (n % b) :: acc),
          ih (n / b) [Nat.digitChar (n % b)], List.append_assoc]
        rfl

theorem toDigitsCore_fuel (b : Nat) (hb : 2 ≤ b) :
    ∀ (f n : Nat) (acc : List Char) (g : Nat),
      0 < f → n < b ^ f → f ≤ g →
      Nat.toDigitsCore b g n acc = Nat.toDigitsCore b f n acc := by
  intro f
  induction f with
  | zero => intro n acc g h0 _ _; omega
  | succ f ih =>
      intro n acc g _ hlt hle
      obtain ⟨g', rfl⟩ : ∃ g', g = g' + 1 := ⟨g - 1, by omega⟩
      simp only [Nat.toDigitsCore]
      by_cases h : n / b = 0
      · simp [h]
      · simp only [h, if_false]
        have hf : 0 < f := by
          rcases Nat.eq_zero_or_pos f with rfl | hf
          · exfalso
            have hnb : n < b := by simpa using hlt
            exact h (Nat.div_eq_of_lt hnb)
          · exact hf
        have hdiv : n / b < b ^ f := by
          have hb0 : 0 < b := by omega
          rw [Nat.div_lt_iff_lt_mul hb0]
          calc n < b ^ (f + 1) := hlt
            _ = b ^ f * b := by rw [Nat.pow_succ]
        exact ih (n / b) (Nat.digitChar (n % b) :: acc) g' hf hdiv (by omega)

theorem toDigits_lt_ten (n : Nat) (h : n < 10) :
    Nat.toDigits 10 n = [Nat.digitChar n] := by
  have hdiv : n / 10 = 0 := Nat.div_eq_of_lt h
  have hmod : n % 10 = n := Nat.mod_eq_of_lt h
  simp [Nat.toDigits, Nat.toDigitsCore, hdiv, hmod]

theorem toDigits_ge_ten (n : Nat) (h : 10 ≤ n) :
    Nat.toDigits 10 n =
      Nat.toDigits 10 (n / 10) ++ [Nat.digitChar (n % 10)] := by
  have hdiv : ¬ n / 10 = 0 := by
    intro h0
    have := Nat.div_add_mod n 10
    have hm : n % 10 < 10 := Nat.mod_lt _ (by omega)
    omega
  have hstep : Nat.toDigits 10 n =
      Nat.toDigitsCore 10 n (n / 10) [Nat.digitChar (n % 10)] := by
    simp [Nat.toDigits, Nat.toDigitsCore, hdiv]
  rw [hstep, toDigitsCore_append]
  congr 1
  have hfuel : Nat.toDigitsCore 10 n (n / 10) [] =
      Nat.toDigitsCore 10 (n / 10 + 1) (n / 10) [] := by
    apply toDigitsCore_fuel 10 (by omega)
    · omega
    · calc n / 10 < 10 ^ (n / 10) := Nat.lt_pow_self (by omega) _
        _ ≤ 10 ^ (n / 10 + 1) := Nat.pow_le_pow_right (by omega) (by omega)
    · have h1 : n / 10 < n := Nat.div_lt_self (by omega) (by omega)
      omega
  rw [hfuel]
  rfl

/-- Decimal evaluation of a digit-character list. -/
def decVal (l : List Char) : Nat :=
  l.foldl (fun a c => 10 * a + (c.toNat - 48)) 0

theorem digitChar_val : ∀ d, d < 10 → (Nat.digitChar d).toNat - 48 = d := by
  decide

theorem decVal_toDigits (n : Nat) : decVal (Nat.toDigits 10 n) = n := by
  induction n using Nat.strong_induction_on with
  | _ n ih =>
      by_cases h : n < 10
      · rw [toDigits_lt_ten n h]
        have := digitChar_val n h
        simp only [decVal, List.foldl_cons, List.foldl_nil]
        omega
      · push_neg at h
        rw [toDigits_ge_ten n h]
        unfold decVal
        rw [List.foldl_append]
        simp only [List.foldl_cons, List.foldl_nil]
        have ihd := ih (n / 10) (Nat.div_lt_self (by omega) (by omega))
        unfold decVal at ihd
        rw [ihd, digitChar_val (n % 10) (Nat.mod_lt _ (by omega))]
        omega

theorem natRepr_injective {m n : Nat} (h : Nat.repr m = Nat.repr n) :
    m = n := by
  have hd : Nat.toDigits 10 m = Nat.toDigits 10 n := by
    have hdata := congrArg String.data h
    simpa [Nat.repr, List.asString] using hdata
  calc m = decVal (Nat.toDigits 10 m) := (decVal_toDigits m).symm
    _ = decVal (Nat.toDigits 10 n) := by rw [hd]
    _ = n := decVal_toDigits n

theorem stringAppend_left_cancel {s t u : String} (h : s ++ t = s ++ u) :
    t = u := by
  have hd : s.data ++ t.data = s.data ++ u.data := by
    have hdata := congrArg String.data h
    simpa using hdata
  have hdu : t.data = u.data := List.append_cancel_left hd
  cases t
  cases u
  simp only at hdu
  rw [hdu]

/-- Suffixing any fixed prefix with `"_"` and `Nat.repr` is injective in
the numeric suffix. -/
theorem repr_suffix_injective (pre : String) {i j : Nat} (hij : i ≠ j) :
    pre ++ "_" ++ Nat.repr i ≠ pre ++ "_" ++ Nat.repr j := by
  intro h
  exact hij (natRepr_injective (stringAppend_left_cancel h))

/-! ### Code generation (`SkShaderInfo::toSkSL` helpers)

The recursive glue-code walker of `SkShaderCodeDictionary.cpp`.  The C++
threads three mutable locations through the recursion — the shared
cursor `int* entryIndex`, the `preamble` string and the `mainBody`
string — modelled here by explicit state passing: each function returns
the updated cursor and strings.  Recursion is bounded by an explicit
fuel argument (every successful C++ run corresponds to a sufficiently
large fuel; `none` covers both fuel exhaustion and `SkASSERT` failure). -/

/-- Embedding of `add_indent`: appends `4*indent` spaces. -/
def add_indent (result : String) (indent : Nat) : String :=
  result ++ String.mk (List.replicate (4 * indent) ' ')

/-- Embedding of `SkPaintParamsKey::BlockReader`: a decoded view of one block bound to
its snippet descriptor; `codeSnippetId` is the snippet identity read from
the key. -/
structure SkPaintParamsKey.BlockReader where
  codeSnippetId : Nat
  entry : SkShaderSnippet
  deriving DecidableEq

/-- Embedding of `BlockReader::numChildren`: the descriptor's declared child count. -/
def SkPaintParamsKey.BlockReader.numChildren
    (r : SkPaintParamsKey.BlockReader) : Nat :=
  r.entry.fNumChildren

/-- Embedding of `BlockReader::numDataPayloadFields`: the descriptor's payload schema
size. -/
def SkPaintParamsKey.BlockReader.numDataPayloadFields
    (r : SkPaintParamsKey.BlockReader) : Nat :=
  r.entry.fDataPayloadExpectations.length

/-- Embedding of `SkShaderInfo`: the flattened pre-order block-reader sequence, plus
an oracle for the external SkSL transcoder
(`SkSL::PipelineStage::ConvertProgram` together with the runtime-effect
dictionary lookup, both outside this translation unit):
`convertProgramText id idx` is the preamble text the transcoder emits for
the runtime effect registered under snippet id `id` when mangled by block
position `idx`, or `none` when no effect is registered (`SkASSERT(effect)`
fails). -/
structure SkShaderInfo where
  fBlockReaders : List SkPaintParamsKey.BlockReader
  convertProgramText : Nat → Nat → Option String

/-- Embedding of `pre_local_matrix_for_entry`: returns the parent matrix unchanged for
blocks that do not need local coordinates; otherwise asserts that the
first uniform exists and is a `float4x4` and forms
`(parentMatrix * mangledLocalMatrixUniform)`. -/
def pre_local_matrix_for_entry (shaderInfo : SkShaderInfo)
    (entryIndex : Nat) (parentMatrix : String) : Option String :=
  match shaderInfo.fBlockReaders.get? entryIndex with
  | none => none
  | some reader =>
      if ¬ reader.entry.needsLocalCoords then
        some parentMatrix
      else
        match reader.entry.fUniforms with
        | [] => none
        | u :: _ =>
            if u.type = SkSLType.kFloat4x4 then
              some ("(" ++ parentMatrix ++ " * " ++
                reader.entry.getMangledUniformName 0 entryIndex ++ ")")
            else
              none

/-- Embedding of `append_default_snippet_arguments`: `(u0, u1, ..., child0, ...)`
with each uniform name mangled by the entry index, except that uniform 0
of a local-coordinates snippet is passed as
`currentPreLocal * dev2LocalUni`. -/
def append_default_snippet_arguments (entry : SkShaderSnippet)
    (entryIndex : Nat) (currentPreLocalName : String)
    (childOutputs : List String) : String :=
  let uniformArgs := (List.range entry.fUniforms.length).map (fun i =>
    if i = 0 ∧ entry.needsLocalCoords then
      currentPreLocalName ++ " * dev2LocalUni"
    else
      entry.getMangledUniformName i entryIndex)
  "(" ++ String.intercalate ", " (uniformArgs ++ childOutputs) ++ ")"

/-- The assertion shared by the default glue generators: a snippet that
requests local coordinates must declare a `float4x4` as its first
uniform. -/
def localCoordsUniformOK (entry : SkShaderSnippet) : Bool :=
  !entry.needsLocalCoords ||
    (match entry.fUniforms with
     | u :: _ => u.type = SkSLType.kFloat4x4
     | [] => false)

mutual

/-- Embedding of `emit_glue_code_for_entry`: declares the mangled output variable,
opens a scope, renews the pre-local transform when the block requires
local coordinates (otherwise reuses the parent's variable), invokes the
block's expression generator, assigns its result, and closes the scope.
Returns `(scopeOutputVar, entryIndex, preamble, mainBody)`. -/
def emitGlueCodeForEntry : Nat → SkShaderInfo → Nat → String → String →
    String → String → Nat → Option (String × Nat × String × String)
  | 0, _, _, _, _, _, _, _ => none
  | Nat.succ fuel, shaderInfo, entryIndex, priorStageOutputName,
      parentPreLocalName, preamble, mainBody, indent =>
    match shaderInfo.fBlockReaders.get? entryIndex with
    | none => none
    | some reader =>
        let curEntryIndex := entryIndex
        let scopeOutputVar := get_mangled_name "outColor" curEntryIndex
        let mainBody1 := add_indent mainBody indent ++ "half4 " ++
          scopeOutputVar ++ "; // output of " ++ reader.entry.fName ++ "\n"
        let mainBody2 := add_indent mainBody1 indent ++ "\x7b\n"
        if reader.entry.needsLocalCoords then
          match pre_local_matrix_for_entry shaderInfo curEntryIndex
              parentPreLocalName with
          | none => none
          | some preLocalExpression =>
              let currentPreLocalName :=
                get_mangled_name "preLocal" curEntryIndex
              let mainBody3 := add_indent mainBody2 (indent + 1) ++
                "float4x4 " ++ currentPreLocalName ++ " = " ++
                preLocalExpression ++ ";\n"
              match runGenerator fuel reader.entry.fExpressionGenerator
                  shaderInfo entryIndex reader priorStageOutputName
                  currentPreLocalName preamble with
              | none => none
              | some (expr, entryIndex2, preamble2) =>
                  let mainBody4 := add_indent mainBody3 (indent + 1) ++
                    scopeOutputVar ++ " = " ++ expr ++ ";\n"
                  some (scopeOutputVar, entryIndex2, preamble2,
                    add_indent mainBody4 indent ++ "\x7d\n")
        else
          match runGenerator fuel reader.entry.fExpressionGenerator
              shaderInfo entryIndex reader priorStageOutputName
              parentPreLocalName preamble with
          | none => none
          | some (expr, entryIndex2, preamble2) =>
              let mainBody4 := add_indent mainBody2 (indent + 1) ++
                scopeOutputVar ++ " = " ++ expr ++ ";\n"
              some (scopeOutputVar, entryIndex2, preamble2,
                add_indent mainBody4 indent ++ "\x7d\n")
termination_by structural fuel => fuel

/-- Embedding of `emit_child_glue_code`: reads the parent's declared child count and
emits each child in sequence, advancing the shared cursor past each
child's entire subtree; returns the child output-variable names. -/
def emitChildGlueCode : Nat → SkShaderInfo → Nat → String → String →
    String → String → Nat → Option (List String × Nat × String × String)
  | 0, _, _, _, _, _, _, _ => none
  | Nat.succ fuel, shaderInfo, entryIndex, priorStageOutputName,
      currentPreLocalName, preamble, mainBody, indent =>
    match shaderInfo.fBlockReaders.get? entryIndex with
    | none => none
    | some reader =>
        emitChildLoop fuel shaderInfo reader.numChildren entryIndex
          priorStageOutputName currentPreLocalName preamble mainBody indent
termination_by structural fuel => fuel

/-- The `for (int j = 0; j < numChildren; ++j)` loop body of
`emit_child_glue_code`: `*entryIndex += 1` then a recursive
`emit_glue_code_for_entry`. -/
def emitChildLoop : Nat → SkShaderInfo → Nat → Nat → String → String →
    String → String → Nat → Option (List String × Nat × String × String)
  | 0, _, _, _, _, _, _, _, _ => none
  | Nat.succ _, _, 0, entryIndex, _, _, preamble, mainBody, _ =>
      some ([], entryIndex, preamble, mainBody)
  | Nat.succ fuel, shaderInfo, Nat.succ numLeft, entryIndex,
      priorStageOutputName, currentPreLocalName, preamble, mainBody,
      indent =>
    match emitGlueCodeForEntry fuel shaderInfo (entryIndex + 1)
        priorStageOutputName currentPreLocalName preamble mainBody
        indent with
    | none => none
    | some (childOutputVar, entryIndex1, preamble1, mainBody1) =>
        match emitChildLoop fuel shaderInfo numLeft entryIndex1
            priorStageOutputName currentPreLocalName preamble1 mainBody1
            indent with
        | none => none
        | some (rest, entryIndex2, preamble2, mainBody2) =>
            some (childOutputVar :: rest, entryIndex2, preamble2, mainBody2)
termination_by structural fuel => fuel

/-- Dispatch of `fExpressionGenerator` (the per-snippet glue strategies
of the anonymous namespace).  Returns
`(expression, entryIndex, preamble)`. -/
def runGenerator : Nat → GenerateExpressionForSnippetFn → SkShaderInfo →
    Nat → SkPaintParamsKey.BlockReader → String → String → String →
    Option (String × Nat × String)
  | 0, _, _, _, _, _, _, _ => none
  | Nat.succ fuel, gen, shaderInfo, entryIndex, reader,
      priorStageOutputName, currentPreLocalName, preamble =>
    match gen with
    | GenerateExpressionForSnippetFn.generateDefaultGlueCode =>
        if reader.entry.fNumChildren ≠ 0 then none
        else if ¬ localCoordsUniformOK reader.entry then none
        else
          some (reader.entry.fStaticFunctionName ++
            append_default_snippet_arguments reader.entry entryIndex
              currentPreLocalName [],
            entryIndex, preamble)
    | GenerateExpressionForSnippetFn.generateDefaultGlueCodeWithChildren =>
        if reader.entry.fNumChildren = 0 then none
        else if ¬ localCoordsUniformOK reader.entry then none
        else
          let curEntryIndex := entryIndex
          let helperFnName :=
            get_mangled_name reader.entry.fStaticFunctionName curEntryIndex
          let helperFn := "half4 " ++ helperFnName ++
            "(half4 inColor, float4x4 preLocal) \x7b"
          match emitChildGlueCode fuel shaderInfo entryIndex "inColor"
              "preLocal" preamble helperFn 0 with
          | none => none
          | some (childOutputVarNames, entryIndex1, preamble1, helperFn1) =>
              if childOutputVarNames.length ≠ reader.entry.fNumChildren then
                none
              else
                let helperFn2 := helperFn1 ++ "    return " ++
                  reader.entry.fStaticFunctionName ++
                  append_default_snippet_arguments reader.entry curEntryIndex
                    "preLocal" childOutputVarNames ++ ";\n\x7d\n"
                some (helperFnName ++ "(" ++ priorStageOutputName ++ ", " ++
                  currentPreLocalName ++ ")",
                  entryIndex1, preamble1 ++ helperFn2)
    | GenerateExpressionForSnippetFn.generateImageShaderGlueCode =>
        let samplerVarName := "sampler_" ++ Nat.repr entryIndex ++ "_0"
        let subsetName := reader.entry.getMangledUniformName 1 entryIndex
        let tmXName := reader.entry.getMangledUniformName 2 entryIndex
        let tmYName := reader.entry.getMangledUniformName 3 entryIndex
        let imgWidthName := reader.entry.getMangledUniformName 4 entryIndex
        let imgHeightName := reader.entry.getMangledUniformName 5 entryIndex
        some ("sample(" ++ samplerVarName ++ ", " ++
          reader.entry.fStaticFunctionName ++ "(" ++ currentPreLocalName ++
          " * dev2LocalUni, " ++ subsetName ++ ", " ++ tmXName ++ ", " ++
          tmYName ++ ", " ++ imgWidthName ++ ", " ++ imgHeightName ++ "))",
          entryIndex, preamble)
    | GenerateExpressionForSnippetFn.generateRuntimeShaderGlueCode =>
        match shaderInfo.convertProgramText reader.codeSnippetId
            entryIndex with
        | none => none
        | some text =>
            if reader.entry.fName ≠ kRuntimeShaderName then none
            else if ¬ reader.entry.needsLocalCoords then none
            else
              match reader.entry.fUniforms with
              | [] => none
              | u :: _ =>
                  if u.type ≠ SkSLType.kFloat4x4 then none
                  else
                    some (reader.entry.fName ++ "_" ++
                      Nat.repr entryIndex ++ "(" ++ currentPreLocalName ++
                      ", " ++ priorStageOutputName ++ ")",
                      entryIndex, preamble ++ text)
    | GenerateExpressionForSnippetFn.generateFixedFunctionBlenderGlueCode =>
        if reader.entry.fUniforms ≠ [] then none
        else if reader.numDataPayloadFields ≠ 0 then none
        else some (priorStageOutputName, entryIndex, preamble)
    | GenerateExpressionForSnippetFn.generateShaderBasedBlenderGlueCode =>
        if reader.entry.fUniforms.length ≠ 1 then none
        else if reader.numDataPayloadFields ≠ 0 then none
        else
          some (reader.entry.fStaticFunctionName ++ "(" ++
            reader.entry.getMangledUniformName 0 entryIndex ++ ", " ++
            priorStageOutputName ++ ", half4(1))",
            entryIndex, preamble)
termination_by structural fuel => fuel

end

/-- One unfolding step of `emit_glue_code_for_entry`, characterizing the
transform handling of a visited block: when the descriptor does not need
local coordinates the expression generator is invoked with the parent's
transform expression verbatim and nothing else is emitted around the
output assignment; when it does, the emitted declaration binds the
position-mangled `preLocal` variable to
`(parentTransform * mangledFirstUniform)` and the generator is invoked
with that new variable. -/
theorem emitGlueCodeForEntry_step
    (info : SkShaderInfo) (fuel i indent : Nat)
    (priorStageOutputName parentPreLocalName preamble mainBody : String)
    (reader : SkPaintParamsKey.BlockReader)
    (res : String × Nat × String × String)
    (hr : info.fBlockReaders.get? i = some reader)
    (hres : emitGlueCodeForEntry (Nat.succ fuel) info i priorStageOutputName
      parentPreLocalName preamble mainBody indent = some res) :
    (reader.entry.needsLocalCoords = false →
      ∃ expr entryIndex2 preamble2,
        runGenerator fuel reader.entry.fExpressionGenerator info i reader
          priorStageOutputName parentPreLocalName preamble =
          some (expr, entryIndex2, preamble2) ∧
        res = (get_mangled_name "outColor" i, entryIndex2, preamble2,
          add_indent (add_indent (add_indent (add_indent mainBody indent ++
            "half4 " ++ get_mangled_name "outColor" i ++ "; // output of " ++
            reader.entry.fName ++ "\n") indent ++ "\x7b\n") (indent + 1) ++
            get_mangled_name "outColor" i ++ " = " ++ expr ++ ";\n")
            indent ++ "\x7d\n")) ∧
    (reader.entry.needsLocalCoords = true →
      (∃ u rest, reader.entry.fUniforms = u :: rest ∧
        u.type = SkSLType.kFloat4x4) ∧
      ∃ expr entryIndex2 preamble2,
        runGenerator fuel reader.entry.fExpressionGenerator info i reader
          priorStageOutputName (get_mangled_name "preLocal" i) preamble =
          some (expr, entryIndex2, preamble2) ∧
        res = (get_mangled_name "outColor" i, entryIndex2, preamble2,
          add_indent (add_indent (add_indent (add_indent (add_indent
            mainBody indent ++ "half4 " ++ get_mangled_name "outColor" i ++
            "; // output of " ++ reader.entry.fName ++ "\n") indent ++
            "\x7b\n") (indent + 1) ++ "float4x4 " ++
            get_mangled_name "preLocal" i ++ " = " ++
            ("(" ++ parentPreLocalName ++ " * " ++
              reader.entry.getMangledUniformName 0 i ++ ")") ++ ";\n")
            (indent + 1) ++ get_mangled_name "outColor" i ++ " = " ++
            expr ++ ";\n") indent ++ "\x7d\n")) := by
  simp only [emitGlueCodeForEntry, hr] at hres
  constructor
  · intro hneeds
    rw [hneeds] at hres
    simp only [Bool.false_eq_true, if_false] at hres
    cases hg : runGenerator fuel reader.entry.fExpressionGenerator info i
        reader priorStageOutputName parentPreLocalName preamble with
    | none => rw [hg] at hres; exact absurd hres (by simp)
    | some t =>
        obtain ⟨expr, entryIndex2, preamble2⟩ := t
        rw [hg] at hres
        simp only [Option.some.injEq] at hres
        exact ⟨expr, entryIndex2, preamble2, rfl, hres.symm⟩
  · intro hneeds
    rw [hneeds] at hres
    simp only [if_true] at hres
    simp only [pre_local_matrix_for_entry, hr, hneeds, eq_self_iff_true,
      not_true, if_false] at hres
    cases hu : reader.entry.fUniforms with
    | nil =>
        simp only [hu] at hres
        exact absurd hres (by simp)
    | cons u rest =>
        simp only [hu] at hres
        by_cases ht : u.type = SkSLType.kFloat4x4
        · rw [if_pos ht] at hres
          refine ⟨⟨u, rest, rfl, ht⟩, ?_⟩
          cases hg : runGenerator fuel reader.entry.fExpressionGenerator
              info i reader priorStageOutputName
              (get_mangled_name "preLocal" i) preamble with
          | none => rw [hg] at hres; exact absurd hres (by simp)
          | some t =>
              obtain ⟨expr, entryIndex2, preamble2⟩ := t
              rw [hg] at hres
              simp only [Option.some.injEq] at hres
              exact ⟨expr, entryIndex2, preamble2, rfl, hres.symm⟩
        · rw [if_neg ht] at hres
          exact absurd hres (by simp)

/-- C7: During code generation, for every visited block (every visited
block is processed by exactly one `emit_glue_code_for_entry` call, both
at top level and when a parent recurses into its children): if its
descriptor requires the inherited transform, the walker emits a new
transform expression equal to the parent transform multiplied by the
block's position-mangled first transform uniform and hands the new
variable to the expression generator; otherwise the block inherits the
parent's transform expression verbatim (the generator receives the same
identifier) and no transform uniform is consumed and no transform
variable is introduced (the emitted text is exactly the scope header,
the output assignment and the closing brace). -/
theorem emit_transform_propagation
    (info : SkShaderInfo) (fuel i indent : Nat)
    (priorStageOutputName parentPreLocalName preamble mainBody : String)
    (reader : SkPaintParamsKey.BlockReader)
    (res : String × Nat × String × String)
    (hr : info.fBlockReaders.get? i = some reader)
    (hres : emitGlueCodeForEntry (Nat.succ fuel) info i priorStageOutputName
      parentPreLocalName preamble mainBody indent = some res) :
    (reader.entry.needsLocalCoords = false →
      ∃ expr entryIndex2 preamble2,
        runGenerator fuel reader.entry.fExpressionGenerator info i reader
          priorStageOutputName parentPreLocalName preamble =
          some (expr, entryIndex2, preamble2) ∧
        res = (get_mangled_name "outColor" i, entryIndex2, preamble2,
          add_indent (add_indent (add_indent (add_indent mainBody indent ++
            "half4 " ++ get_mangled_name "outColor" i ++ "; // output of " ++
            reader.entry.fName ++ "\n") indent ++ "\x7b\n") (indent + 1) ++
            get_mangled_name "outColor" i ++ " = " ++ expr ++ ";\n")
            indent ++ "\x7d\n")) ∧
    (reader.entry.needsLocalCoords = true →
      (∃ u rest, reader.entry.fUniforms = u :: rest ∧
        u.type = SkSLType.kFloat4x4) ∧
      ∃ expr entryIndex2 preamble2,
        runGenerator fuel reader.entry.fExpressionGenerator info i reader
          priorStageOutputName (get_mangled_name "preLocal" i) preamble =
          some (expr, entryIndex2, preamble2) ∧
        res = (get_mangled_name "outColor" i, entryIndex2, preamble2,
          add_indent (add_indent (add_indent (add_indent (add_indent
            mainBody indent ++ "half4 " ++ get_mangled_name "outColor" i ++
            "; // output of " ++ reader.entry.fName ++ "\n") indent ++
            "\x7b\n") (indent + 1) ++ "float4x4 " ++
            get_mangled_name "preLocal" i ++ " = " ++
            ("(" ++ parentPreLocalName ++ " * " ++
              reader.entry.getMangledUniformName 0 i ++ ")") ++ ";\n")
            (indent + 1) ++ get_mangled_name "outColor" i ++ " = " ++
            expr ++ ";\n") indent ++ "\x7d\n")) :=
  emitGlueCodeForEntry_step info fuel i indent priorStageOutputName
    parentPreLocalName preamble mainBody reader res hr hres

def wGradInfo : SkShaderInfo :=
  ⟨[⟨2, fBuiltInCodeSnippets.getD 2 default⟩], fun _ _ => none⟩

def wGradRes : String × Nat × String × String :=
  ("outColor_0", 0, "",
    "half4 outColor_0; // output of LinearGradient4\n\x7b\n    float4x4 preLocal_0 = (initialPreLocal * localMatrix_0);\n    outColor_0 = sk_linear_grad_4_shader(preLocal_0 * dev2LocalUni, colors_0, offsets_0, point0_0, point1_0, tilemode_0);\n\x7d\n")

set_option maxRecDepth 4000 in
theorem emit_transform_propagation_witness :
    wGradInfo.fBlockReaders.get? 0 =
      some ⟨2, fBuiltInCodeSnippets.getD 2 default⟩ ∧
    emitGlueCodeForEntry 2 wGradInfo 0 "initialColor" "initialPreLocal" ""
      "" 0 = some wGradRes ∧
    (∃ u rest,
      (⟨2, fBuiltInCodeSnippets.getD 2 default⟩ :
        SkPaintParamsKey.BlockReader).entry.fUniforms = u :: rest ∧
      u.type = SkSLType.kFloat4x4) :=
  ⟨by decide, by decide,
    ((emit_transform_propagation wGradInfo 1 0 0 "initialColor"
      "initialPreLocal" "" "" ⟨2, fBuiltInCodeSnippets.getD 2 default⟩
      wGradRes (by decide) (by decide)).2 (by decide)).1⟩

/-- Helper: every successful `emit_glue_code_for_entry` call returns the
position-mangled output-variable name for its block position. -/
theorem emitGlueCodeForEntry_outputVar
    (fuel : Nat) (info : SkShaderInfo) (i : Nat) (indent : Nat)
    (prior parent preamble mainBody : String)
    (res : String × Nat × String × String)
    (h : emitGlueCodeForEntry fuel info i prior parent preamble mainBody
      indent = some res) :
    res.1 = get_mangled_name "outColor" i := by
  cases fuel with
  | zero => exact absurd h (by simp [emitGlueCodeForEntry])
  | succ fuel =>
      cases hr : info.fBlockReaders.get? i with
      | none =>
          simp only [emitGlueCodeForEntry, hr] at h
          exact absurd h (by simp)
      | some reader =>
          have hc := emitGlueCodeForEntry_step info fuel i indent prior
            parent preamble mainBody reader res hr h
          cases hneeds : reader.entry.needsLocalCoords with
          | false =>
              obtain ⟨expr, i2, p2, _, hres⟩ := hc.1 hneeds
              rw [hres]
          | true =>
              obtain ⟨_, expr, i2, p2, _, hres⟩ := hc.2 hneeds
              rw [hres]

/-- C8: Generating code for two instances of the same snippet at two
different positions of the flattened sequence yields two distinct
output-variable names, and the position-mangled uniform names of any
snippet differ between the two positions: position-based mangling is
injective over positions. -/
theorem mangled_names_injective
    (info : SkShaderInfo) (fuel1 fuel2 i j indent1 indent2 : Nat)
    (prior1 prior2 parent1 parent2 preamble1 preamble2 mainBody1
      mainBody2 : String)
    (res1 res2 : String × Nat × String × String)
    (hij : i ≠ j)
    (h1 : emitGlueCodeForEntry fuel1 info i prior1 parent1 preamble1
      mainBody1 indent1 = some res1)
    (h2 : emitGlueCodeForEntry fuel2 info j prior2 parent2 preamble2
      mainBody2 indent2 = some res2) :
    res1.1 ≠ res2.1 ∧
    ∀ (s : SkShaderSnippet) (uniformIndex : Nat),
      s.getMangledUniformName uniformIndex i ≠
        s.getMangledUniformName uniformIndex j := by
  constructor
  · rw [emitGlueCodeForEntry_outputVar fuel1 info i indent1 prior1 parent1
      preamble1 mainBody1 res1 h1,
      emitGlueCodeForEntry_outputVar fuel2 info j indent2 prior2 parent2
      preamble2 mainBody2 res2 h2]
    exact repr_suffix_injective "outColor" hij
  · intro s uniformIndex
    exact repr_suffix_injective _ hij

def wPairInfo : SkShaderInfo :=
  ⟨[⟨1, fBuiltInCodeSnippets.getD 1 default⟩,
    ⟨1, fBuiltInCodeSnippets.getD 1 default⟩], fun _ _ => none⟩

def wPairRes0 : String × Nat × String × String :=
  ("outColor_0", 0, "",
    "half4 outColor_0; // output of SolidColor\n\x7b\n    outColor_0 = sk_solid_shader(color_0);\n\x7d\n")

def wPairRes1 : String × Nat × String × String :=
  ("outColor_1", 1, "",
    "half4 outColor_1; // output of SolidColor\n\x7b\n    outColor_1 = sk_solid_shader(color_1);\n\x7d\n")

set_option maxRecDepth 4000 in
theorem mangled_names_injective_witness :
    (0 : Nat) ≠ 1 ∧
    emitGlueCodeForEntry 2 wPairInfo 0 "initialColor" "initialPreLocal" ""
      "" 0 = some wPairRes0 ∧
    emitGlueCodeForEntry 2 wPairInfo 1 "outColor_0" "initialPreLocal" ""
      "" 0 = some wPairRes1 ∧
    wPairRes0.1 ≠ wPairRes1.1 :=
  ⟨by decide, by decide, by decide,
    (mangled_names_injective wPairInfo 2 2 0 1 0 0 "initialColor"
      "outColor_0" "initialPreLocal" "initialPreLocal" "" "" "" ""
      wPairRes0 wPairRes1 (by decide) (by decide) (by decide)).1⟩
